import Mathlib

/-!
Verification development for the ESP32 oil-dispenser firmware
(`src/firmware/esp32_oil_node/src/main.cpp`).

The control core is embedded shallowly: `float` values become `ℚ`,
machine integers become `ℕ` (time is monotone so `uint32` wraparound is
not modelled), and the interrupt-driven pulse counter becomes an explicit
event that adds pulses while the flow interrupt is attached.  The
cooperative control loop is modelled as a step function over an explicit
engine context, one event (pulse batch, sampler tick, accepted key,
parsed dashboard command, display refresh, serial command) at a time.
-/

/-- Firmware constants (DEFAULTS block of `main.cpp`). -/
def defaultPPL : ℚ := 263

def defaultStopLag : Nat := 300

def defaultStopExtra : Nat := 20

def noFlowTimeoutMs : Nat := 6000

/-- `OVER_DISPENSE_LIMIT_L = 0.05f` (+50 mL fault margin). -/
def overDispenseLimitL : ℚ := 1/20

def postPumpSettleMs : Nat := 1500

/-- `COAST_FLOW_FACTOR = 0.3f`. -/
def coastFlowFactor : ℚ := 3/10

def maxEarlyStopPct : Nat := 40

/-- `SMALL_VOL_OFFSET_ML = 0.0f` (shipped default). -/
def smallVolOffsetML : ℚ := 0

/-- `PRICE_PER_LITER = 45.0f` (local fallback price). -/
def pricePerLiter : ℚ := 45

/-- `MIN_LITERS = 0.05f`. -/
def minLiters : ℚ := 1/20

def maxLiters : ℚ := 50

def operatorPIN : String := "1234"

def maxPinLength : Nat := 6

def maxPinAttempts : Nat := 3

def lockoutDurationMs : Nat := 30000

def completeShowDurationMs : Nat := 3000

/-- `lroundf` on the non-negative values the firmware feeds it:
round to nearest, halves away from zero. -/
def lroundQ (q : ℚ) : Nat := (Int.floor (q + 1/2)).toNat

/-- C cast `(uint32_t)` applied to a non-negative float: truncation. -/
def truncQ (q : ℚ) : Nat := (Int.floor q).toNat

/-- `enum DeviceState` from the firmware. -/
inductive DeviceState
  | LOCKED
  | ENTER_PIN
  | WAIT_DASHBOARD
  | AUTHORIZED
  | DISPENSING
  | PAUSED
  | COMPLETE
  | FAULT
  | CAL_MENU
  | CAL_REAL_VOL
  | CAL_OVERSHOOT
  | CAL_DISPENSE
  deriving DecidableEq, Repr

/-- The engine context: the firmware's global mutable state that the
control loop reads and writes.  `storedPPL`/`storedStopLag`/`storedStopExtra`
model the NVS calibration namespace (`prefs` `oilcal`). -/
structure Ctx where
  state : DeviceState
  pumpRunning : Bool
  flowAttached : Bool
  settlingActive : Bool
  settlingStartMs : Nat
  dispenseStartMs : Nat
  pulseCount : Nat
  lastPulseCount : Nat
  lastPulseTime : Nat
  lastCalcTime : Nat
  flowRate_Lmin : ℚ
  flowRate_mLs : ℚ
  dispensed_L : ℚ
  total_L : ℚ
  target_L : ℚ
  targetPulses : Nat
  pulsesPerLiter : ℚ
  stopLagMs : Nat
  stopExtraPulses : Nat
  storedPPL : ℚ
  storedStopLag : Nat
  storedStopExtra : Nat
  calMenuPage : Nat
  calInput : List Nat
  calDispensePulses : Nat
  pinEntry : String
  pinAttempts : Nat
  lockoutStartMs : Nat
  transactionCount : Nat
  salesTotal_L : ℚ
  salesTotal_K : ℚ
  dashboardPrice : ℚ
  currentCommandId : String
  operatorId : String
  lastFaultMsg : String
  completeShowMs : Nat
  deriving DecidableEq, Repr

/-- Over-dispense margin in pulses:
`(uint32_t)lroundf(OVER_DISPENSE_LIMIT_L * pulsesPerLiter)`. -/
def overPulsesOf (ppl : ℚ) : Nat := lroundQ (overDispenseLimitL * ppl)

/-- Instantaneous pulse rate `dp * 1000 / dt` (0 when `dt == 0`). -/
def pulsesPerSecOf (dp dt : Nat) : ℚ :=
  if 0 < dt then ((dp : ℚ) * 1000) / (dt : ℚ) else 0

/-- Coast compensation
`lroundf(pulsesPerSec * (POST_PUMP_SETTLE_MS/1000) * COAST_FLOW_FACTOR)`. -/
def coastPulsesOf (pps : ℚ) : Nat :=
  lroundQ (pps * ((postPumpSettleMs : ℚ) / 1000) * coastFlowFactor)

/-- The Stop Predictor's early-stop pulse count, exactly as computed in
the `STATE_DISPENSING` branch of `calculateFlow` (coast term, stop-extra,
lag term above the 500 mL threshold, then the 40 % safety cap, which uses
C unsigned integer division). -/
def stopEarlyOf (dp dt targetPulses : Nat) (ppl : ℚ) (stopLag stopExtra : Nat) : Nat :=
  let pps := pulsesPerSecOf dp dt
  let base := coastPulsesOf pps + stopExtra
  let smallAmountPulses := truncQ ((1/2) * ppl)
  let se :=
    if smallAmountPulses < targetPulses then
      base + lroundQ (pps * ((stopLag : ℚ) / 1000))
    else base
  min se (targetPulses * maxEarlyStopPct / 100)

/-- The pump-off threshold
`stopAt = (stopEarly < targetPulses) ? targetPulses - stopEarly : targetPulses`. -/
def stopAtOf (dp dt targetPulses : Nat) (ppl : ℚ) (stopLag stopExtra : Nat) : Nat :=
  if stopEarlyOf dp dt targetPulses ppl stopLag stopExtra < targetPulses then
    targetPulses - stopEarlyOf dp dt targetPulses ppl stopLag stopExtra
  else targetPulses

/-- Price actually charged: dashboard-synced price when set, else the
local `PRICE_PER_LITER`. -/
def priceUsed (c : Ctx) : ℚ :=
  if 0 < c.dashboardPrice then c.dashboardPrice else pricePerLiter

/-- `recordTransaction(dispensed_L, target_L * priceUsed)` as invoked from
`showComplete`: volume total accumulates the dispensed litres, revenue
accumulates target litres times the price. -/
def showCompleteRecord (c : Ctx) : Ctx :=
  { c with transactionCount := c.transactionCount + 1,
           salesTotal_L := c.salesTotal_L + c.dispensed_L,
           salesTotal_K := c.salesTotal_K + c.target_L * priceUsed c }

/-- Final settling snapshot: recompute `dispensed_L` from the final pulse
count, clear the settling flag, detach the flow interrupt. -/
def settleSnapshot (c : Ctx) : Ctx :=
  { c with dispensed_L := (c.pulseCount : ℚ) / c.pulsesPerLiter,
           settlingActive := false, flowAttached := false }

/-- The small-volume correction applied below the 1 L threshold (inactive
because `SMALL_VOL_OFFSET_ML` is 0). -/
def smallVolAdjust (c : Ctx) : Ctx :=
  if c.target_L < 1 ∧ smallVolOffsetML ≠ 0 then
    { c with dispensed_L := c.dispensed_L + smallVolOffsetML / 1000 }
  else c

/-- Transition into `COMPLETE`: accumulate `total_L`, record the
transaction (`showComplete`), and arm the auto-return timer. -/
def completeFinish (now : Nat) (c : Ctx) : Ctx :=
  { showCompleteRecord
      { c with state := DeviceState.COMPLETE, total_L := c.total_L + c.dispensed_L } with
    completeShowMs := now }

/-- Settling-window finalisation inside `calculateFlow`: once
`POST_PUMP_SETTLE_MS` has elapsed, take the final pulse snapshot, detach
the flow interrupt and transition to `CAL_REAL_VOL` (calibration) or
`COMPLETE` (normal dispense, recording the transaction). -/
def settleFinish (now : Nat) (c : Ctx) : Ctx :=
  if postPumpSettleMs ≤ now - c.settlingStartMs then
    if c.state = DeviceState.CAL_DISPENSE then
      { settleSnapshot c with calDispensePulses := c.pulseCount,
                              state := DeviceState.CAL_REAL_VOL, calInput := [] }
    else completeFinish now (smallVolAdjust (settleSnapshot c))
  else c

/-- The sampling phase of `calculateFlow()`: snapshot the pulse counter,
update `lastCalcTime`, `lastPulseCount`, `lastPulseTime` (re-armed when
new pulses arrived), the dispensed volume and both rate presentations. -/
def sampleUpdate (now : Nat) (c : Ctx) : Ctx :=
  let p := c.pulseCount
  let dt := now - c.lastCalcTime
  let dp := p - c.lastPulseCount
  { c with lastCalcTime := now, lastPulseCount := p,
           lastPulseTime := if 0 < dp then now else c.lastPulseTime,
           dispensed_L := (p : ℚ) / c.pulsesPerLiter,
           flowRate_Lmin :=
             if 0 < dt then ((dp : ℚ) / c.pulsesPerLiter) * 60000 / (dt : ℚ) else 0,
           flowRate_mLs :=
             if 0 < dt then ((dp : ℚ) / c.pulsesPerLiter) * 1000 * 1000 / (dt : ℚ)
             else 0 }

/-- No-flow fault outcome: pump off, sensor detached, `FAULT`. -/
def noFlowFault (c : Ctx) : Ctx :=
  { c with pumpRunning := false, flowAttached := false,
           state := DeviceState.FAULT, lastFaultMsg := "NO FLOW! Check" }

/-- Over-dispense fault outcome: pump off, sensor detached, `FAULT`. -/
def overFault (c : Ctx) : Ctx :=
  { c with pumpRunning := false, flowAttached := false,
           state := DeviceState.FAULT, lastFaultMsg := "OVER-DISPENSE!" }

/-- Pump-off into the settling window: the flow interrupt stays attached
so coast/drip pulses keep counting. -/
def enterSettling (now : Nat) (c : Ctx) : Ctx :=
  { c with pumpRunning := false, settlingActive := true, settlingStartMs := now }

/-- The `STATE_CAL_DISPENSE` branch of `calculateFlow`: record the pulse
snapshot and stop at the raw `targetPulses` with no early-stop
compensation (and no over-dispense check). -/
def calStopCheck (now : Nat) (c1 : Ctx) : Ctx :=
  if c1.targetPulses ≤ c1.pulseCount then
    enterSettling now { c1 with calDispensePulses := c1.pulseCount }
  else { c1 with calDispensePulses := c1.pulseCount }

/-- The `STATE_DISPENSING` branch of `calculateFlow`: over-dispense fault
check first, then the Stop Predictor's stop decision. -/
def dispStopCheck (now dp dt : Nat) (c1 : Ctx) : Ctx :=
  if c1.targetPulses + overPulsesOf c1.pulsesPerLiter < c1.pulseCount then overFault c1
  else if stopAtOf dp dt c1.targetPulses c1.pulsesPerLiter c1.stopLagMs
            c1.stopExtraPulses ≤ c1.pulseCount then
    enterSettling now c1
  else c1

/-- `calculateFlow()`: the Flow Sampler tick.  Runs at most every 250 ms;
snapshots the pulse counter (`sampleUpdate`), then in order: settling
finalisation, no-flow fault, calibration-dispense stop, over-dispense
fault and Stop Predictor stop decision (the guards read fields that
`sampleUpdate` does not touch, so they are stated on `c`; the no-flow
guard reads the just-updated `lastPulseTime`). -/
def calculateFlow (now : Nat) (c : Ctx) : Ctx :=
  if now - c.lastCalcTime < 250 then c
  else if c.settlingActive then settleFinish now (sampleUpdate now c)
  else if (c.state = DeviceState.DISPENSING ∨ c.state = DeviceState.CAL_DISPENSE) ∧
          c.pumpRunning = true ∧
          noFlowTimeoutMs < now - (sampleUpdate now c).lastPulseTime then
    noFlowFault (sampleUpdate now c)
  else if c.state = DeviceState.CAL_DISPENSE then
    calStopCheck now (sampleUpdate now c)
  else if c.state = DeviceState.DISPENSING ∧ c.pumpRunning = true ∧
          0 < c.targetPulses then
    dispStopCheck now (c.pulseCount - c.lastPulseCount) (now - c.lastCalcTime)
      (sampleUpdate now c)
  else sampleUpdate now c

/-- `resetDispense()`: pump off, flow interrupt detached, counters and
session volume fields cleared, timers re-armed to `now`. -/
def resetDispense (now : Nat) (c : Ctx) : Ctx :=
  { c with pumpRunning := false, flowAttached := false, pulseCount := 0,
           lastPulseCount := 0, lastPulseTime := now, lastCalcTime := now,
           flowRate_Lmin := 0, flowRate_mLs := 0, dispensed_L := 0,
           target_L := 0, targetPulses := 0,
           settlingActive := false, settlingStartMs := 0, dispenseStartMs := 0 }

/-- `resetTransaction()`: `resetDispense` plus clearing the remote command
bookkeeping. -/
def resetTransaction (now : Nat) (c : Ctx) : Ctx :=
  { resetDispense now c with currentCommandId := "", operatorId := "" }

/-- `returnToLocked()`. -/
def returnToLocked (now : Nat) (c : Ctx) : Ctx :=
  { resetTransaction now c with pinEntry := "", state := DeviceState.LOCKED }

/-- `returnToWaitDashboard()`. -/
def returnToWaitDashboard (now : Nat) (c : Ctx) : Ctx :=
  { resetTransaction now c with state := DeviceState.WAIT_DASHBOARD }

/-- `startDispense(liters)`: reset, set target and `targetPulses =
lroundf(liters * pulsesPerLiter)`, attach flow, start pump, enter
`DISPENSING`. -/
def startDispense (liters : ℚ) (now : Nat) (c : Ctx) : Ctx :=
  let c1 := resetDispense now c
  { c1 with target_L := liters,
            targetPulses := lroundQ (liters * c1.pulsesPerLiter),
            flowAttached := true, lastPulseTime := now, lastCalcTime := now,
            dispenseStartMs := now,
            state := DeviceState.DISPENSING, pumpRunning := true }

/-- `startCalDispense()`: the guided 1 L calibration dispense. -/
def startCalDispense (now : Nat) (c : Ctx) : Ctx :=
  let c1 := resetDispense now c
  { c1 with target_L := 1,
            targetPulses := lroundQ (1 * c1.pulsesPerLiter),
            flowAttached := true, lastPulseTime := now, lastCalcTime := now,
            state := DeviceState.CAL_DISPENSE, pumpRunning := true }

/-- `loadCalibration()`: read the NVS values and clamp each out-of-range
value back to its default. -/
def loadCalibration (c : Ctx) : Ctx :=
  { c with pulsesPerLiter :=
             if c.storedPPL < 50 ∨ 2000 < c.storedPPL then defaultPPL else c.storedPPL,
           stopLagMs := if 3000 < c.storedStopLag then defaultStopLag else c.storedStopLag,
           stopExtraPulses :=
             if 300 < c.storedStopExtra then defaultStopExtra else c.storedStopExtra }

/-- `saveCalibration()`: persist the live profile to NVS. -/
def saveCalibration (c : Ctx) : Ctx :=
  { c with storedPPL := c.pulsesPerLiter, storedStopLag := c.stopLagMs,
           storedStopExtra := c.stopExtraPulses }

/-- `resetCalibrationDefaults()`. -/
def resetCalibrationDefaults (c : Ctx) : Ctx :=
  saveCalibration { c with pulsesPerLiter := defaultPPL,
                           stopLagMs := defaultStopLag,
                           stopExtraPulses := defaultStopExtra }

/-- Numeric value of the calibration digit entry (`String::toFloat` on a
string of decimal digits). -/
def digitsVal (l : List Nat) : Nat := l.foldl (fun a d => a * 10 + d) 0

/-- `handleCalKeypad(key)`: keypad dispatch inside the calibration
sub-states. -/
def handleCalKeypad (key : Char) (now : Nat) (c : Ctx) : Ctx :=
  if c.state = DeviceState.CAL_MENU then
    if key = '#' then startCalDispense now c
    else if key = '2' then { c with state := DeviceState.CAL_OVERSHOOT }
    else if key = '3' then resetCalibrationDefaults c
    else if key = '*' then { c with state := DeviceState.WAIT_DASHBOARD }
    else if key = 'A' ∨ key = 'B' then { c with calMenuPage := (c.calMenuPage + 1) % 2 }
    else c
  else if c.state = DeviceState.CAL_REAL_VOL then
    if '0' ≤ key ∧ key ≤ '9' then
      if c.calInput.length < 5 then
        { c with calInput := c.calInput ++ [key.toNat - 48] }
      else c
    else if key = '*' then { c with state := DeviceState.CAL_MENU, calMenuPage := 0 }
    else if key = '#' then
      if c.calInput.length = 0 then c
      else if (digitsVal c.calInput : ℚ) < 100 ∨ 5000 < (digitsVal c.calInput : ℚ) then
        { c with calInput := [] }
      else if c.pulsesPerLiter * (1000 / (digitsVal c.calInput : ℚ)) < 50 ∨
              2000 < c.pulsesPerLiter * (1000 / (digitsVal c.calInput : ℚ)) then
        { c with calInput := [] }
      else
        { saveCalibration
            { c with pulsesPerLiter :=
                c.pulsesPerLiter * (1000 / (digitsVal c.calInput : ℚ)) } with
          calInput := [], state := DeviceState.CAL_MENU, calMenuPage := 0 }
    else c
  else if c.state = DeviceState.CAL_OVERSHOOT then
    if key = '2' then
      { c with stopExtraPulses :=
          if c.stopExtraPulses < 300 then c.stopExtraPulses + 1 else c.stopExtraPulses }
    else if key = '8' then
      { c with stopExtraPulses :=
          if 0 < c.stopExtraPulses then c.stopExtraPulses - 1 else c.stopExtraPulses }
    else if key = '#' then
      { saveCalibration c with state := DeviceState.CAL_MENU, calMenuPage := 0 }
    else if key = '*' then
      { loadCalibration c with state := DeviceState.CAL_MENU, calMenuPage := 0 }
    else c
  else if c.state = DeviceState.CAL_DISPENSE then
    if key = '*' then
      { c with pumpRunning := false, settlingActive := false, flowAttached := false,
               state := DeviceState.CAL_MENU, calMenuPage := 0 }
    else c
  else c

/-- `handleKeypad()` after debounce: dispatch one accepted key in the
current state (the 3-second star-hold that opens the calibration menu is
a separate event). -/
def handleKey (key : Char) (now : Nat) (c : Ctx) : Ctx :=
  if c.state = DeviceState.CAL_MENU ∨ c.state = DeviceState.CAL_REAL_VOL ∨
     c.state = DeviceState.CAL_OVERSHOOT ∨ c.state = DeviceState.CAL_DISPENSE then
    handleCalKeypad key now c
  else if c.state = DeviceState.LOCKED then
    if key = 'A' then
      if maxPinAttempts ≤ c.pinAttempts then
        if now - c.lockoutStartMs < lockoutDurationMs then c
        else { c with pinAttempts := 0, pinEntry := "", state := DeviceState.ENTER_PIN }
      else { c with pinEntry := "", state := DeviceState.ENTER_PIN }
    else c
  else if c.state = DeviceState.ENTER_PIN then
    if '0' ≤ key ∧ key ≤ '9' then
      if c.pinEntry.length < maxPinLength then
        { c with pinEntry := c.pinEntry.push key }
      else c
    else if key = '#' then
      if c.pinEntry = operatorPIN then
        { c with pinAttempts := 0, pinEntry := "", state := DeviceState.WAIT_DASHBOARD }
      else if maxPinAttempts ≤ c.pinAttempts + 1 then
        { c with pinAttempts := c.pinAttempts + 1, pinEntry := "",
                 lockoutStartMs := now, state := DeviceState.LOCKED }
      else { c with pinAttempts := c.pinAttempts + 1, pinEntry := "" }
    else if key = '*' then { c with pinEntry := "", state := DeviceState.LOCKED }
    else if key = 'B' then
      if 0 < c.pinEntry.length then { c with pinEntry := c.pinEntry.dropRight 1 }
      else c
    else c
  else if c.state = DeviceState.WAIT_DASHBOARD then
    if key = '*' then returnToLocked now c else c
  else if c.state = DeviceState.AUTHORIZED then
    if key = 'D' then startDispense c.target_L now c
    else if key = '*' then returnToWaitDashboard now c
    else c
  else if c.state = DeviceState.DISPENSING then
    if key = '*' then
      { c with pumpRunning := false, settlingActive := false, flowAttached := false,
               state := DeviceState.PAUSED }
    else c
  else if c.state = DeviceState.PAUSED then
    if key = '#' then
      { c with flowAttached := true, lastPulseTime := now, lastCalcTime := now,
               pumpRunning := true, state := DeviceState.DISPENSING }
    else if key = '*' then
      returnToWaitDashboard now
        { c with pumpRunning := false, flowAttached := false,
                 total_L := c.total_L + c.dispensed_L }
    else c
  else if c.state = DeviceState.COMPLETE then returnToWaitDashboard now c
  else if c.state = DeviceState.FAULT then
    returnToWaitDashboard now { c with pumpRunning := false, flowAttached := false }
  else c

/-- Acknowledgment sent back for a dashboard command. -/
structure Ack where
  id : String
  ok : Bool
  msg : String
  deriving DecidableEq, Repr

/-- Parsed dashboard commands (`pollDashboardCommands`). -/
inductive Cmd
  | pumpOnC
  | pumpOffC
  | setPriceC (price : Option ℚ)
  | dispenseTargetC (liters : Option ℚ) (opId : Option String) (price : Option ℚ)
  | unknownC
  deriving DecidableEq, Repr

/-- Bookkeeping done by the `DISPENSE_TARGET` handler before range
validation: remember the command id, the optional operator id and the
optional dashboard price from the payload. -/
def targetMeta (id : String) (op? : Option String) (pr? : Option ℚ) (c : Ctx) : Ctx :=
  { c with currentCommandId := id,
           operatorId := op?.getD c.operatorId,
           dashboardPrice := pr?.getD c.dashboardPrice }

/-- The `PUMP_OFF` emergency handler body after the pump has been forced
off and settling cancelled. -/
def pumpOffCmd (id : String) (now : Nat) (c : Ctx) : Ctx × List Ack :=
  if c.state = DeviceState.DISPENSING then
    (returnToWaitDashboard now
       { c with flowAttached := false, total_L := c.total_L + c.dispensed_L },
     [⟨id, true, "Pump OFF"⟩])
  else (c, [⟨id, true, "Pump OFF"⟩])

/-- `pollDashboardCommands()` given one parsed command: returns the new
context and the acknowledgments sent.  `PUMP_ON`/`PUMP_OFF` are accepted
in any state; `DISPENSE_TARGET` only in `WAIT_DASHBOARD`, otherwise it is
rejected with a busy acknowledgment. -/
def handleCommand (id : String) (cmd : Cmd) (now : Nat) (c : Ctx) : Ctx × List Ack :=
  match cmd with
  | Cmd.pumpOnC => ({ c with pumpRunning := true }, [⟨id, true, "Pump ON"⟩])
  | Cmd.pumpOffC =>
    pumpOffCmd id now { c with pumpRunning := false, settlingActive := false }
  | Cmd.setPriceC p? =>
    match p? with
    | none => (c, [⟨id, false, "Missing price field"⟩])
    | some p =>
      if 0 < p then ({ c with dashboardPrice := p }, [⟨id, true, "Price updated"⟩])
      else (c, [⟨id, false, "Invalid price"⟩])
  | Cmd.dispenseTargetC l? op? pr? =>
    if c.state ≠ DeviceState.WAIT_DASHBOARD then (c, [⟨id, false, "Device busy"⟩])
    else
      match l? with
      | none => (c, [⟨id, false, "Missing liters field"⟩])
      | some liters =>
        if minLiters ≤ liters ∧ liters ≤ maxLiters then
          ({ targetMeta id op? pr? c with target_L := liters,
                                          state := DeviceState.AUTHORIZED },
           [⟨id, true, "Ready to dispense"⟩])
        else (targetMeta id op? pr? c, [⟨id, false, "Invalid target liters"⟩])
  | Cmd.unknownC => (c, [⟨id, false, "Unknown command type"⟩])

/-- One control-loop event: a batch of sensor pulses (counted only while
the flow interrupt is attached), a Flow Sampler tick, an accepted keypad
key, the 3-second star-hold entering the calibration menu, one parsed
dashboard command, a display refresh (which performs the `COMPLETE`
auto-return), or a serial reset command. -/
inductive Event
  | pulses (k : Nat)
  | tick (now : Nat)
  | key (k : Char) (now : Nat)
  | enterCal (now : Nat)
  | cmd (id : String) (c : Cmd) (now : Nat)
  | display (now : Nat)
  | serialReset (now : Nat)
  | serialDefaults
  deriving DecidableEq, Repr

/-- The engine's step function: one event applied to the context. -/
def step (e : Event) (c : Ctx) : Ctx :=
  match e with
  | Event.pulses k =>
    if c.flowAttached then { c with pulseCount := c.pulseCount + k } else c
  | Event.tick now => calculateFlow now c
  | Event.key k now => handleKey k now c
  | Event.enterCal _ =>
    if c.state = DeviceState.WAIT_DASHBOARD then
      { c with state := DeviceState.CAL_MENU, calMenuPage := 0 }
    else c
  | Event.cmd id cm now => (handleCommand id cm now c).fst
  | Event.display now =>
    if c.state = DeviceState.COMPLETE ∧ 0 < c.completeShowMs ∧
       completeShowDurationMs ≤ now - c.completeShowMs then
      returnToWaitDashboard now { c with completeShowMs := 0 }
    else c
  | Event.serialReset now =>
    returnToLocked now { c with pumpRunning := false, flowAttached := false, total_L := 0 }
  | Event.serialDefaults => resetCalibrationDefaults c

/-- Run a list of events from a starting context. -/
def runEvents (es : List Event) (c : Ctx) : Ctx :=
  es.foldl (fun a e => step e a) c

/-- The context right after `setup()` (calibration at defaults, everything
reset, state `LOCKED`). -/
def boot : Ctx :=
  { state := DeviceState.LOCKED, pumpRunning := false, flowAttached := false,
    settlingActive := false, settlingStartMs := 0, dispenseStartMs := 0,
    pulseCount := 0, lastPulseCount := 0, lastPulseTime := 0, lastCalcTime := 0,
    flowRate_Lmin := 0, flowRate_mLs := 0, dispensed_L := 0, total_L := 0,
    target_L := 0, targetPulses := 0,
    pulsesPerLiter := defaultPPL, stopLagMs := defaultStopLag,
    stopExtraPulses := defaultStopExtra,
    storedPPL := defaultPPL, storedStopLag := defaultStopLag,
    storedStopExtra := defaultStopExtra,
    calMenuPage := 0, calInput := [], calDispensePulses := 0,
    pinEntry := "", pinAttempts := 0, lockoutStartMs := 0,
    transactionCount := 0, salesTotal_L := 0, salesTotal_K := 0,
    dashboardPrice := 0, currentCommandId := "", operatorId := "",
    lastFaultMsg := "", completeShowMs := 0 }

/-- The pump-command invariant of §3 of the spec: the pump actuator is
commanded ON only while the state is `DISPENSING` or `CAL_DISPENSE`, and
during the settling window the pump is off while the state is still one
of those two. -/
def PumpInv (c : Ctx) : Prop :=
  (c.pumpRunning = true →
     c.state = DeviceState.DISPENSING ∨ c.state = DeviceState.CAL_DISPENSE) ∧
  (c.settlingActive = true →
     c.pumpRunning = false ∧
     (c.state = DeviceState.DISPENSING ∨ c.state = DeviceState.CAL_DISPENSE))

/-- The `CalibrationProfile` invariant of §3 of the spec:
`pulsesPerUnit ∈ [50, 2000]`, `stopLagMs ≤ 3000`, `stopExtraPulses ≤ 300`. -/
def CalInv (c : Ctx) : Prop :=
  50 ≤ c.pulsesPerLiter ∧ c.pulsesPerLiter ≤ 2000 ∧
  c.stopLagMs ≤ 3000 ∧ c.stopExtraPulses ≤ 300

/-- Recognise the remote `PUMP_ON` emergency override event. -/
def isPumpOnCmd : Event → Bool
  | Event.cmd _ Cmd.pumpOnC _ => true
  | _ => false

/-- Contexts reachable from boot by any event sequence that contains no
remote `PUMP_ON` emergency override. -/
inductive ReachableNoRemotePumpOn : Ctx → Prop
  | boot : ReachableNoRemotePumpOn boot
  | next (e : Event) (c : Ctx) (hc : ReachableNoRemotePumpOn c)
      (he : isPumpOnCmd e = false) : ReachableNoRemotePumpOn (step e c)

/-- An execution for claim C1: login, remote authorisation of 1 L, start,
250 pulses, the stop tick (pump off, settling), a 500-pulse burst during
the settling window, and the settling-expiry tick. -/
def c1Events : List Event :=
  [ Event.key 'A' 10, Event.key '1' 20, Event.key '2' 30, Event.key '3' 40,
    Event.key '4' 50, Event.key '#' 60,
    Event.cmd "cmd1" (Cmd.dispenseTargetC (some 1) none none) 70,
    Event.key 'D' 1000, Event.pulses 250, Event.tick 1300,
    Event.pulses 500, Event.tick 2900 ]

/-- Final context of the claim C1 execution. -/
def c1Final : Ctx := runEvents c1Events boot

/-- Events used by the claim C2 counterexample: a complete login, leaving
the device in `WAIT_DASHBOARD` with the pump off. -/
def c2Events : List Event :=
  [ Event.key 'A' 10, Event.key '1' 20, Event.key '2' 30, Event.key '3' 40,
    Event.key '4' 50, Event.key '#' 60 ]

/-- Context for the claim C2 counterexample. -/
def c2Pre : Ctx := runEvents c2Events boot

/-- An execution for claim C3: login, calibration menu, start of the 1 L
calibration dispense, then a 750-pulse burst (calibration target is 263
pulses, so the count is far beyond the over-dispense bound). -/
def c3Events : List Event :=
  [ Event.key 'A' 10, Event.key '1' 20, Event.key '2' 30, Event.key '3' 40,
    Event.key '4' 50, Event.key '#' 60, Event.enterCal 70, Event.key '#' 80,
    Event.pulses 750 ]

/-- Context just before the sampler tick in the claim C3 counterexample. -/
def c3Pre : Ctx := runEvents c3Events boot

/-- Witness context for claim C1: mid-dispense, pulse count beyond the
over-dispense bound. -/
def wC1 : Ctx :=
  { boot with state := DeviceState.DISPENSING, pumpRunning := true,
              targetPulses := 263, pulseCount := 300 }

/-- Witness context for claim C3: like `wC1` with fresh pulses this tick. -/
def wC3 : Ctx :=
  { boot with state := DeviceState.DISPENSING, pumpRunning := true,
              targetPulses := 263, pulseCount := 300, lastPulseCount := 0 }

/-- Witness context for claim C4: dispensing with no pulses ever seen. -/
def wC4 : Ctx :=
  { boot with state := DeviceState.DISPENSING, pumpRunning := true,
              targetPulses := 263 }

/-- Witness context for claim C6: PIN entry with a wrong PIN typed. -/
def wC6 : Ctx := { boot with state := DeviceState.ENTER_PIN, pinEntry := "9999" }

/-- Witness context for claim C6, lockout part: locked out at 3 attempts. -/
def wC6lock : Ctx :=
  { boot with state := DeviceState.LOCKED, pinAttempts := 3, lockoutStartMs := 50 }

/-- Witness context for claim C7: a dispense in progress. -/
def wC7 : Ctx := { boot with state := DeviceState.DISPENSING }

/-- Witness context for claim C8: awaiting the measured volume, operator
typed 1000 (mL). -/
def wC8 : Ctx :=
  { boot with state := DeviceState.CAL_REAL_VOL, calInput := [1, 0, 0, 0] }

/-- Witness context for claim C10: settling after a 1 L dispense that
counted 263 pulses. -/
def wC10 : Ctx :=
  { boot with state := DeviceState.DISPENSING, settlingActive := true,
              pulseCount := 263, target_L := 1 }

@[simp] theorem sampleUpdate_state (now : Nat) (c : Ctx) :
    (sampleUpdate now c).state = c.state := rfl

@[simp] theorem sampleUpdate_pumpRunning (now : Nat) (c : Ctx) :
    (sampleUpdate now c).pumpRunning = c.pumpRunning := rfl

@[simp] theorem sampleUpdate_settlingActive (now : Nat) (c : Ctx) :
    (sampleUpdate now c).settlingActive = c.settlingActive := rfl

@[simp] theorem sampleUpdate_settlingStartMs (now : Nat) (c : Ctx) :
    (sampleUpdate now c).settlingStartMs = c.settlingStartMs := rfl

@[simp] theorem sampleUpdate_targetPulses (now : Nat) (c : Ctx) :
    (sampleUpdate now c).targetPulses = c.targetPulses := rfl

@[simp] theorem sampleUpdate_pulseCount (now : Nat) (c : Ctx) :
    (sampleUpdate now c).pulseCount = c.pulseCount := rfl

@[simp] theorem sampleUpdate_lastPulseTime (now : Nat) (c : Ctx) :
    (sampleUpdate now c).lastPulseTime =
      if 0 < c.pulseCount - c.lastPulseCount then now else c.lastPulseTime := rfl

@[simp] theorem saveCalibration_state (c : Ctx) :
    (saveCalibration c).state = c.state := rfl

@[simp] theorem saveCalibration_pumpRunning (c : Ctx) :
    (saveCalibration c).pumpRunning = c.pumpRunning := rfl

@[simp] theorem saveCalibration_settlingActive (c : Ctx) :
    (saveCalibration c).settlingActive = c.settlingActive := rfl

@[simp] theorem loadCalibration_state (c : Ctx) :
    (loadCalibration c).state = c.state := rfl

@[simp] theorem loadCalibration_pumpRunning (c : Ctx) :
    (loadCalibration c).pumpRunning = c.pumpRunning := rfl

@[simp] theorem loadCalibration_settlingActive (c : Ctx) :
    (loadCalibration c).settlingActive = c.settlingActive := rfl

@[simp] theorem resetCalibrationDefaults_state (c : Ctx) :
    (resetCalibrationDefaults c).state = c.state := rfl

@[simp] theorem resetCalibrationDefaults_pumpRunning (c : Ctx) :
    (resetCalibrationDefaults c).pumpRunning = c.pumpRunning := rfl

@[simp] theorem resetCalibrationDefaults_settlingActive (c : Ctx) :
    (resetCalibrationDefaults c).settlingActive = c.settlingActive := rfl

theorem pumpInv_of_off (c : Ctx) (h1 : c.pumpRunning = false)
    (h2 : c.settlingActive = false) : PumpInv c := by
  simp [PumpInv, h1, h2]

theorem pump_off_of_state (c : Ctx) (h : PumpInv c)
    (hs : c.state ≠ DeviceState.DISPENSING) (hs' : c.state ≠ DeviceState.CAL_DISPENSE) :
    c.pumpRunning = false ∧ c.settlingActive = false := by
  constructor
  · cases hb : c.pumpRunning
    · rfl
    · rcases h.1 hb with h' | h' <;> simp_all
  · cases hb : c.settlingActive
    · rfl
    · rcases (h.2 hb).2 with h' | h' <;> simp_all

theorem pumpInv_settleFinish (now : Nat) (c : Ctx) (h : PumpInv c)
    (hs : c.settlingActive = true) : PumpInv (settleFinish now c) := by
  obtain ⟨hp, hst⟩ := h.2 hs
  unfold settleFinish completeFinish smallVolAdjust settleSnapshot showCompleteRecord
  rcases hst with hst | hst <;>
    simp only [hst] <;> split_ifs <;> simp_all [PumpInv]

theorem pumpInv_calculateFlow (now : Nat) (c : Ctx) (h : PumpInv c) :
    PumpInv (calculateFlow now c) := by
  unfold calculateFlow calStopCheck dispStopCheck noFlowFault overFault enterSettling
  split_ifs <;>
    first
      | exact h
      | (apply pumpInv_settleFinish <;> simp_all [PumpInv])
      | simp_all [PumpInv]

theorem pumpInv_returnToWaitDashboard (now : Nat) (c : Ctx) :
    PumpInv (returnToWaitDashboard now c) := by
  simp [PumpInv, returnToWaitDashboard, resetTransaction, resetDispense]

theorem pumpInv_returnToLocked (now : Nat) (c : Ctx) :
    PumpInv (returnToLocked now c) := by
  simp [PumpInv, returnToLocked, resetTransaction, resetDispense]

theorem pumpInv_startDispense (l : ℚ) (now : Nat) (c : Ctx) :
    PumpInv (startDispense l now c) := by
  simp [PumpInv, startDispense, resetDispense]

theorem pumpInv_startCalDispense (now : Nat) (c : Ctx) :
    PumpInv (startCalDispense now c) := by
  simp [PumpInv, startCalDispense, resetDispense]

theorem pumpInv_handleCalKeypad (k : Char) (now : Nat) (c : Ctx) (h : PumpInv c) :
    PumpInv (handleCalKeypad k now c) := by
  unfold handleCalKeypad
  by_cases h1 : c.state = DeviceState.CAL_MENU
  · rw [if_pos h1]
    obtain ⟨hp, hq⟩ := pump_off_of_state c h (by simp [h1]) (by simp [h1])
    split_ifs <;>
      first
        | exact pumpInv_startCalDispense now c
        | (apply pumpInv_of_off <;>
            simp only [resetCalibrationDefaults_pumpRunning,
              resetCalibrationDefaults_settlingActive, hp, hq])
  · rw [if_neg h1]
    by_cases h2 : c.state = DeviceState.CAL_REAL_VOL
    · rw [if_pos h2]
      obtain ⟨hp, hq⟩ := pump_off_of_state c h (by simp [h2]) (by simp [h2])
      split_ifs <;>
        (apply pumpInv_of_off <;>
          simp only [saveCalibration_pumpRunning, saveCalibration_settlingActive, hp, hq])
    · rw [if_neg h2]
      by_cases h3 : c.state = DeviceState.CAL_OVERSHOOT
      · rw [if_pos h3]
        obtain ⟨hp, hq⟩ := pump_off_of_state c h (by simp [h3]) (by simp [h3])
        split_ifs <;>
          (apply pumpInv_of_off <;>
            simp only [saveCalibration_pumpRunning, saveCalibration_settlingActive,
              loadCalibration_pumpRunning, loadCalibration_settlingActive, hp, hq])
      · rw [if_neg h3]
        by_cases h4 : c.state = DeviceState.CAL_DISPENSE
        · rw [if_pos h4]
          split_ifs
          · apply pumpInv_of_off <;> rfl
          · exact h
        · rw [if_neg h4]
          exact h

theorem pumpInv_handleKey (k : Char) (now : Nat) (c : Ctx) (h : PumpInv c) :
    PumpInv (handleKey k now c) := by
  unfold handleKey
  by_cases hcal : c.state = DeviceState.CAL_MENU ∨ c.state = DeviceState.CAL_REAL_VOL ∨
      c.state = DeviceState.CAL_OVERSHOOT ∨ c.state = DeviceState.CAL_DISPENSE
  · rw [if_pos hcal]
    exact pumpInv_handleCalKeypad k now c h
  · rw [if_neg hcal]
    by_cases h1 : c.state = DeviceState.LOCKED
    · rw [if_pos h1]
      obtain ⟨hp, hq⟩ := pump_off_of_state c h (by simp [h1]) (by simp [h1])
      split_ifs <;> (apply pumpInv_of_off <;> simp only [hp, hq])
    · rw [if_neg h1]
      by_cases h2 : c.state = DeviceState.ENTER_PIN
      · rw [if_pos h2]
        obtain ⟨hp, hq⟩ := pump_off_of_state c h (by simp [h2]) (by simp [h2])
        split_ifs <;> (apply pumpInv_of_off <;> simp only [hp, hq])
      · rw [if_neg h2]
        by_cases h3 : c.state = DeviceState.WAIT_DASHBOARD
        · rw [if_pos h3]
          split_ifs
          · exact pumpInv_returnToLocked now c
          · exact h
        · rw [if_neg h3]
          by_cases h4 : c.state = DeviceState.AUTHORIZED
          · rw [if_pos h4]
            split_ifs
            · exact pumpInv_startDispense c.target_L now c
            · exact pumpInv_returnToWaitDashboard now c
            · exact h
          · rw [if_neg h4]
            by_cases h5 : c.state = DeviceState.DISPENSING
            · rw [if_pos h5]
              split_ifs
              · apply pumpInv_of_off <;> rfl
              · exact h
            · rw [if_neg h5]
              by_cases h6 : c.state = DeviceState.PAUSED
              · rw [if_pos h6]
                obtain ⟨hp, hq⟩ := pump_off_of_state c h (by simp [h6]) (by simp [h6])
                split_ifs
                · exact ⟨fun _ => Or.inl rfl,
                    fun hs => absurd hs (by simp only [hq]; simp)⟩
                · exact pumpInv_returnToWaitDashboard now _
                · exact h
              · rw [if_neg h6]
                by_cases h7 : c.state = DeviceState.COMPLETE
                · rw [if_pos h7]
                  exact pumpInv_returnToWaitDashboard now c
                · rw [if_neg h7]
                  by_cases h8 : c.state = DeviceState.FAULT
                  · rw [if_pos h8]
                    exact pumpInv_returnToWaitDashboard now _
                  · rw [if_neg h8]
                    exact h

theorem pumpInv_pumpOffCmd (id : String) (now : Nat) (c : Ctx)
    (h1 : c.pumpRunning = false) (h2 : c.settlingActive = false) :
    PumpInv (pumpOffCmd id now c).fst := by
  unfold pumpOffCmd
  split_ifs
  · exact pumpInv_returnToWaitDashboard now _
  · exact pumpInv_of_off c h1 h2

theorem pumpInv_handleCommand (id : String) (cm : Cmd) (now : Nat) (c : Ctx)
    (h : PumpInv c) (hno : cm ≠ Cmd.pumpOnC) :
    PumpInv (handleCommand id cm now c).fst := by
  unfold handleCommand
  cases cm
  case pumpOnC => exact absurd rfl hno
  case pumpOffC => exact pumpInv_pumpOffCmd id now _ rfl rfl
  case setPriceC p? =>
    cases p?
    · exact h
    · simp only []
      split_ifs
      · exact ⟨fun hb => h.1 hb, fun hb => h.2 hb⟩
      · exact h
  case dispenseTargetC l? op? pr? =>
    simp only []
    split_ifs with hbusy
    · exact h
    · cases l?
      · exact h
      · simp only [] at hbusy
        have hw : c.state = DeviceState.WAIT_DASHBOARD := by
          by_contra hc
          simp [hc] at hbusy
        obtain ⟨hp, hq⟩ := pump_off_of_state c h (by simp [hw]) (by simp [hw])
        simp only []
        split_ifs <;> (apply pumpInv_of_off <;> simp only [targetMeta, hp, hq])
  case unknownC => exact h

theorem pumpInv_step (e : Event) (c : Ctx) (h : PumpInv c)
    (hno : ∀ id now, e ≠ Event.cmd id Cmd.pumpOnC now) :
    PumpInv (step e c) := by
  cases e
  case pulses k =>
    simp only [step]
    split_ifs <;> exact ⟨fun hb => h.1 hb, fun hb => h.2 hb⟩
  case tick now => exact pumpInv_calculateFlow now c h
  case key k now => exact pumpInv_handleKey k now c h
  case enterCal now =>
    simp only [step]
    split_ifs with hw
    · obtain ⟨hp, hq⟩ := pump_off_of_state c h (by simp [hw]) (by simp [hw])
      apply pumpInv_of_off <;> simp only [hp, hq]
    · exact h
  case cmd id cm now =>
    refine pumpInv_handleCommand id cm now c h (fun hc => ?_)
    exact absurd rfl (hc ▸ hno id now)
  case display now =>
    simp only [step]
    split_ifs
    · exact pumpInv_returnToWaitDashboard now _
    · exact h
  case serialReset now =>
    simp only [step]
    exact pumpInv_returnToLocked now _
  case serialDefaults =>
    simp only [step]
    exact ⟨fun hb => h.1 hb, fun hb => h.2 hb⟩

/-- Claim C2 (amended): in every state reachable without the remote
PUMP_ON emergency override, the pump is commanded ON only while the state
is `DISPENSING` or `CAL_DISPENSE`, every transition out of those states
forces the pump off, and the pump is off for the entire settling window.
(The remote PUMP_ON command itself violates the invariant, see the
counterexample.) -/
theorem C2_pump_invariant (c : Ctx) (hr : ReachableNoRemotePumpOn c) : PumpInv c := by
  induction hr with
  | boot => exact ⟨fun hb => by simp [boot] at hb, fun hb => by simp [boot] at hb⟩
  | next e c hc he ih =>
    refine pumpInv_step e c ih (fun id now hid => ?_)
    rw [hid] at he
    simp [isPumpOnCmd] at he

/-- Claim C2 witness: the boot context is reachable and satisfies the
pump invariant. -/
theorem C2_pump_invariant_witness : PumpInv boot :=
  C2_pump_invariant boot ReachableNoRemotePumpOn.boot

/-- Claim C2 counterexample: after a plain login the device sits in
`WAIT_DASHBOARD` with the pump off; a remote PUMP_ON command turns the
pump on while the state stays `WAIT_DASHBOARD`, so a remote command can
leave the pump running outside Dispensing/CalibrationDispensing. -/
theorem C2_counterexample :
    c2Pre.state = DeviceState.WAIT_DASHBOARD ∧
    c2Pre.pumpRunning = false ∧
    (step (Event.cmd "e1" Cmd.pumpOnC 100) c2Pre).pumpRunning = true ∧
    (step (Event.cmd "e1" Cmd.pumpOnC 100) c2Pre).state =
      DeviceState.WAIT_DASHBOARD := by decide

/-- Claim C1 (amended), enforcement part: on a Flow Sampler tick in
`DISPENSING` with the pump commanded on, outside the settling window and
with a nonzero target, a pulse count beyond `targetPulses` plus the
over-dispense margin drives the engine to `FAULT` with the pump forced
off — never to `COMPLETE`. -/
theorem C1_tick_fault (c : Ctx) (now : Nat)
    (hs : c.state = DeviceState.DISPENSING) (hp : c.pumpRunning = true)
    (hset : c.settlingActive = false) (hdue : 250 ≤ now - c.lastCalcTime)
    (htp : 0 < c.targetPulses)
    (hover : c.targetPulses + overPulsesOf c.pulsesPerLiter < c.pulseCount) :
    (calculateFlow now c).state = DeviceState.FAULT ∧
    (calculateFlow now c).pumpRunning = false ∧
    (calculateFlow now c).state ≠ DeviceState.COMPLETE := by
  unfold calculateFlow
  rw [if_neg (by omega), if_neg (by simp [hset])]
  by_cases hnf : (c.state = DeviceState.DISPENSING ∨ c.state = DeviceState.CAL_DISPENSE) ∧
      c.pumpRunning = true ∧ noFlowTimeoutMs < now - (sampleUpdate now c).lastPulseTime
  · rw [if_pos hnf]
    exact ⟨rfl, rfl, by simp [noFlowFault]⟩
  · rw [if_neg hnf, if_neg (by simp [hs]), if_pos ⟨hs, hp, htp⟩]
    unfold dispStopCheck
    rw [if_pos (by simpa using hover)]
    exact ⟨rfl, rfl, by simp [overFault]⟩

unseal Rat.mul Rat.add Rat.sub Rat.inv Rat.ofScientific in
/-- Claim C1 witness: a concrete mid-dispense tick beyond the bound
faults and does not complete. -/
theorem C1_tick_fault_witness :
    (calculateFlow 300 wC1).state = DeviceState.FAULT ∧
    (calculateFlow 300 wC1).pumpRunning = false ∧
    (calculateFlow 300 wC1).state ≠ DeviceState.COMPLETE :=
  C1_tick_fault wC1 300 rfl rfl rfl (by decide) (by decide) (by decide)

unseal Rat.mul Rat.add Rat.sub Rat.inv Rat.ofScientific in
/-- Claim C1 counterexample: a reachable execution in which a pulse burst
during the post-pump-off settling window carries the session past
`targetVolume + 0.05 L` (750 pulses against a 263-pulse target, i.e.
2.85 L against 1 L), yet the session settles into `COMPLETE`, never
`FAULT` — the safety ceiling is not enforced during settling. -/
theorem C1_counterexample :
    c1Final.state = DeviceState.COMPLETE ∧
    c1Final.settlingActive = false ∧
    c1Final.target_L = 1 ∧
    c1Final.target_L + overDispenseLimitL < c1Final.dispensed_L ∧
    c1Final.targetPulses + overPulsesOf c1Final.pulsesPerLiter <
      c1Final.lastPulseCount := by decide

/-- Claim C3 (amended): the over-dispense check runs on a Dispensing tick
with the pump on before the Stop Predictor's decision — when the
snapshotted count exceeds `targetPulses` plus the margin, the pump is
forced off and the state becomes `FAULT` with the over-dispense reason,
and the tick does not enter the settling that a stop decision would have
produced.  (In `CAL_DISPENSE` no such check exists, see the
counterexample.) -/
theorem C3_over_dispense_fault (c : Ctx) (now : Nat)
    (hs : c.state = DeviceState.DISPENSING) (hp : c.pumpRunning = true)
    (hset : c.settlingActive = false) (hdue : 250 ≤ now - c.lastCalcTime)
    (htp : 0 < c.targetPulses)
    (hdp : c.lastPulseCount < c.pulseCount)
    (hover : c.targetPulses + overPulsesOf c.pulsesPerLiter < c.pulseCount) :
    (calculateFlow now c).state = DeviceState.FAULT ∧
    (calculateFlow now c).pumpRunning = false ∧
    (calculateFlow now c).lastFaultMsg = "OVER-DISPENSE!" ∧
    (calculateFlow now c).settlingActive = false := by
  unfold calculateFlow
  rw [if_neg (by omega), if_neg (by simp [hset])]
  rw [if_neg (by
    rintro ⟨-, -, hx⟩
    rw [sampleUpdate_lastPulseTime, if_pos (by omega)] at hx
    omega)]
  rw [if_neg (by simp [hs]), if_pos ⟨hs, hp, htp⟩]
  unfold dispStopCheck
  rw [if_pos (by simpa using hover)]
  exact ⟨rfl, rfl, rfl, by simp [overFault, hset]⟩

unseal Rat.mul Rat.add Rat.sub Rat.inv Rat.ofScientific in
/-- Claim C3 witness: concrete over-dispense tick faulting with the
over-dispense reason. -/
theorem C3_over_dispense_fault_witness :
    (calculateFlow 300 wC3).state = DeviceState.FAULT ∧
    (calculateFlow 300 wC3).pumpRunning = false ∧
    (calculateFlow 300 wC3).lastFaultMsg = "OVER-DISPENSE!" ∧
    (calculateFlow 300 wC3).settlingActive = false :=
  C3_over_dispense_fault wC3 300 rfl rfl rfl (by decide) (by decide) (by decide)
    (by decide)

unseal Rat.mul Rat.add Rat.sub Rat.inv Rat.ofScientific in
/-- Claim C3 counterexample: a reachable calibration dispense whose pulse
count (750) is far beyond `targetPulses + overPulses` (276) while the
pump is commanded on in `CAL_DISPENSE`; the next sampler tick does not
fault — it merely stops the pump into settling, because `calculateFlow`
has no over-dispense check in the calibration branch. -/
theorem C3_counterexample :
    c3Pre.state = DeviceState.CAL_DISPENSE ∧
    c3Pre.pumpRunning = true ∧
    c3Pre.targetPulses + overPulsesOf c3Pre.pulsesPerLiter < c3Pre.pulseCount ∧
    (calculateFlow 400 c3Pre).state ≠ DeviceState.FAULT ∧
    (calculateFlow 400 c3Pre).state = DeviceState.CAL_DISPENSE ∧
    (calculateFlow 400 c3Pre).pumpRunning = false ∧
    (calculateFlow 400 c3Pre).settlingActive = true := by decide

/-- Claim C4: while dispensing (normal or calibration) with the pump on,
if no new pulse has arrived and more than `noFlowTimeoutMs` (6000 ms) has
passed since the last pulse, the sampler tick forces the pump off,
detaches the flow sensor and enters `FAULT` with the no-flow reason. -/
theorem C4_no_flow_fault (c : Ctx) (now : Nat)
    (hs : c.state = DeviceState.DISPENSING ∨ c.state = DeviceState.CAL_DISPENSE)
    (hp : c.pumpRunning = true) (hset : c.settlingActive = false)
    (hdue : 250 ≤ now - c.lastCalcTime)
    (hnp : c.pulseCount = c.lastPulseCount)
    (ht : noFlowTimeoutMs < now - c.lastPulseTime) :
    (calculateFlow now c).state = DeviceState.FAULT ∧
    (calculateFlow now c).pumpRunning = false ∧
    (calculateFlow now c).flowAttached = false ∧
    (calculateFlow now c).lastFaultMsg = "NO FLOW! Check" := by
  unfold calculateFlow
  rw [if_neg (by omega), if_neg (by simp [hset])]
  rw [if_pos ⟨hs, hp, by rw [sampleUpdate_lastPulseTime, if_neg (by omega)]; exact ht⟩]
  exact ⟨rfl, rfl, rfl, rfl⟩

/-- Claim C4 witness: 7000 ms with no pulses while dispensing faults. -/
theorem C4_no_flow_fault_witness :
    (calculateFlow 7000 wC4).state = DeviceState.FAULT ∧
    (calculateFlow 7000 wC4).pumpRunning = false ∧
    (calculateFlow 7000 wC4).flowAttached = false ∧
    (calculateFlow 7000 wC4).lastFaultMsg = "NO FLOW! Check" :=
  C4_no_flow_fault wC4 7000 (Or.inl rfl) rfl rfl (by decide) rfl (by decide)

/-- Claim C5: for every target with `targetPulses > 0`, every calibration
profile within the §3 bounds and any sampled rate (`dp`, `dt`
non-negative), the Stop Predictor's pump-off threshold satisfies
`targetPulses * 0.6 ≤ stopAt ≤ targetPulses`: the early stop is capped at
40 % of the target before being subtracted. -/
theorem C5_stop_bound (dp dt T : Nat) (ppl : ℚ) (lag extra : Nat) (hT : 0 < T)
    (h1 : 50 ≤ ppl) (h2 : ppl ≤ 2000) (h3 : lag ≤ 3000) (h4 : extra ≤ 300) :
    (T : ℚ) * (6/10) ≤ (stopAtOf dp dt T ppl lag extra : ℚ) ∧
    stopAtOf dp dt T ppl lag extra ≤ T := by
  have hcap : stopEarlyOf dp dt T ppl lag extra ≤ T * maxEarlyStopPct / 100 :=
    min_le_right _ _
  constructor
  · unfold stopAtOf
    split_ifs with hlt
    · have hse : ((stopEarlyOf dp dt T ppl lag extra : ℕ) : ℚ) ≤ (T : ℚ) * 40 / 100 := by
        calc ((stopEarlyOf dp dt T ppl lag extra : ℕ) : ℚ)
            ≤ ((T * maxEarlyStopPct / 100 : ℕ) : ℚ) := by exact_mod_cast hcap
          _ ≤ ((T * maxEarlyStopPct : ℕ) : ℚ) / 100 := Nat.cast_div_le
          _ = (T : ℚ) * 40 / 100 := by
              rw [show maxEarlyStopPct = 40 from rfl]; push_cast; ring
      rw [Nat.cast_sub (le_of_lt hlt)]
      linarith
    · nlinarith [Nat.cast_nonneg (α := ℚ) T]
  · unfold stopAtOf
    split_ifs
    · exact Nat.sub_le _ _
    · exact le_refl T

unseal Rat.mul Rat.add Rat.sub Rat.inv Rat.ofScientific in
/-- Claim C5 witness: Scenario A numbers (263 pulses/L, 1 L target would
be 263 pulses; here dp = 250 over dt = 300 ms). -/
theorem C5_stop_bound_witness :
    (263 : ℚ) * (6/10) ≤ (stopAtOf 250 300 263 263 300 20 : ℚ) ∧
    stopAtOf 250 300 263 263 300 20 ≤ 263 :=
  C5_stop_bound 250 300 263 263 300 20 (by decide) (by decide) (by decide)
    (by decide) (by decide)

/-- Claim C6: PIN access control.  A wrong PIN confirmation increments the
attempt counter; a correct PIN resets it to zero and proceeds to
`WAIT_DASHBOARD`; the third consecutive wrong PIN locks the device and
starts the 30 s lockout timer; fewer than three wrong PINs do not lock;
during the lockout window a login attempt is rejected without touching
the counter; after the window expires the next login attempt resets the
counter to zero and proceeds to PIN entry. -/
theorem C6_pin_lockout :
    (∀ (c : Ctx) (now : Nat), c.state = DeviceState.ENTER_PIN →
       c.pinEntry ≠ operatorPIN →
       (handleKey '#' now c).pinAttempts = c.pinAttempts + 1) ∧
    (∀ (c : Ctx) (now : Nat), c.state = DeviceState.ENTER_PIN →
       c.pinEntry = operatorPIN →
       (handleKey '#' now c).pinAttempts = 0 ∧
       (handleKey '#' now c).state = DeviceState.WAIT_DASHBOARD) ∧
    (∀ (c : Ctx) (now : Nat), c.state = DeviceState.ENTER_PIN →
       c.pinEntry ≠ operatorPIN → maxPinAttempts ≤ c.pinAttempts + 1 →
       (handleKey '#' now c).state = DeviceState.LOCKED ∧
       (handleKey '#' now c).lockoutStartMs = now) ∧
    (∀ (c : Ctx) (now : Nat), c.state = DeviceState.ENTER_PIN →
       c.pinEntry ≠ operatorPIN → c.pinAttempts + 1 < maxPinAttempts →
       (handleKey '#' now c).state = DeviceState.ENTER_PIN ∧
       (handleKey '#' now c).lockoutStartMs = c.lockoutStartMs) ∧
    (∀ (c : Ctx) (now : Nat), c.state = DeviceState.LOCKED →
       maxPinAttempts ≤ c.pinAttempts → now - c.lockoutStartMs < lockoutDurationMs →
       handleKey 'A' now c = c) ∧
    (∀ (c : Ctx) (now : Nat), c.state = DeviceState.LOCKED →
       maxPinAttempts ≤ c.pinAttempts → lockoutDurationMs ≤ now - c.lockoutStartMs →
       (handleKey 'A' now c).pinAttempts = 0 ∧
       (handleKey 'A' now c).state = DeviceState.ENTER_PIN) := by
  refine ⟨?_, ?_, ?_, ?_, ?_, ?_⟩
  · intro c now hs hw
    unfold handleKey
    rw [if_neg (by simp [hs]), if_neg (by simp [hs]), if_pos hs,
        if_neg (by decide), if_pos rfl, if_neg hw]
    split_ifs <;> rfl
  · intro c now hs hw
    unfold handleKey
    rw [if_neg (by simp [hs]), if_neg (by simp [hs]), if_pos hs,
        if_neg (by decide), if_pos rfl, if_pos hw]
    exact ⟨rfl, rfl⟩
  · intro c now hs hw hm
    unfold handleKey
    rw [if_neg (by simp [hs]), if_neg (by simp [hs]), if_pos hs,
        if_neg (by decide), if_pos rfl, if_neg hw, if_pos hm]
    exact ⟨rfl, rfl⟩
  · intro c now hs hw hm
    unfold handleKey
    rw [if_neg (by simp [hs]), if_neg (by simp [hs]), if_pos hs,
        if_neg (by decide), if_pos rfl, if_neg hw, if_neg (by omega)]
    exact ⟨hs, rfl⟩
  · intro c now hs hm hl
    unfold handleKey
    rw [if_neg (by simp [hs]), if_pos hs, if_pos rfl, if_pos hm, if_pos hl]
  · intro c now hs hm hl
    unfold handleKey
    rw [if_neg (by simp [hs]), if_pos hs, if_pos rfl, if_pos hm, if_neg (by omega)]
    exact ⟨rfl, rfl⟩

/-- Claim C6 witness: a wrong PIN ("9999" against "1234") raises the
counter to 1, and a fourth login attempt 50 ms into the lockout is
rejected unchanged. -/
theorem C6_pin_lockout_witness :
    (handleKey '#' 5 wC6).pinAttempts = wC6.pinAttempts + 1 ∧
    handleKey 'A' 100 wC6lock = wC6lock :=
  ⟨C6_pin_lockout.1 wC6 5 rfl (by decide),
   C6_pin_lockout.2.2.2.2.1 wC6lock 100 rfl (by decide) (by decide)⟩

/-- Claim C7: a DISPENSE_TARGET command received in any state other than
`WAIT_DASHBOARD` is rejected with exactly one "Device busy"
acknowledgment and leaves the whole context — in particular the state,
`target_L` and `targetPulses` — unchanged. -/
theorem C7_busy_reject (c : Ctx) (id : String) (l? : Option ℚ) (op? : Option String)
    (pr? : Option ℚ) (now : Nat) (h : c.state ≠ DeviceState.WAIT_DASHBOARD) :
    handleCommand id (Cmd.dispenseTargetC l? op? pr?) now c =
      (c, [⟨id, false, "Device busy"⟩]) := by
  simp only [handleCommand]
  rw [if_pos h]

/-- Claim C7 witness: a 10 L authorisation while dispensing is rejected
busy. -/
theorem C7_busy_reject_witness :
    handleCommand "c9" (Cmd.dispenseTargetC (some 10) none none) 0 wC7 =
      (wC7, [⟨"c9", false, "Device busy"⟩]) :=
  C7_busy_reject wC7 "c9" (some 10) none none 0 (by decide)

/-- Claim C8: confirming a measured volume of 1000 mL (the nominal 1 L
reference) leaves `pulsesPerLiter` unchanged, because
`newPPL = oldPPL * (1000 / 1000) = oldPPL` and the old value is inside
the valid range so the recomputation is accepted. -/
theorem C8_cal_identity (c : Ctx) (now : Nat)
    (hs : c.state = DeviceState.CAL_REAL_VOL)
    (hv : digitsVal c.calInput = 1000) (hne : c.calInput ≠ [])
    (h4 : 50 ≤ c.pulsesPerLiter) (h5 : c.pulsesPerLiter ≤ 2000) :
    (handleCalKeypad '#' now c).pulsesPerLiter = c.pulsesPerLiter := by
  unfold handleCalKeypad
  rw [if_neg (by simp [hs]), if_pos hs]
  rw [if_neg (by decide), if_neg (by decide), if_pos rfl]
  rw [if_neg (by simpa using hne), hv]
  rw [if_neg (by norm_num)]
  rw [if_neg (by
    push_neg
    norm_num
    constructor <;> linarith)]
  show c.pulsesPerLiter * (1000 / (1000 : ℚ)) = c.pulsesPerLiter
  norm_num

unseal Rat.mul Rat.add Rat.sub Rat.inv Rat.ofScientific in
/-- Claim C8 witness: entering 1000 mL with the default 263 pulses/L
leaves the calibration at 263. -/
theorem C8_cal_identity_witness :
    (handleCalKeypad '#' 0 wC8).pulsesPerLiter = wC8.pulsesPerLiter :=
  C8_cal_identity wC8 0 rfl (by decide) (by decide) (by decide) (by decide)

theorem calInv_load (c : Ctx) : CalInv (loadCalibration c) := by
  unfold CalInv loadCalibration
  refine ⟨?_, ?_, ?_, ?_⟩ <;> simp only []
  · split_ifs with hx
    · norm_num [defaultPPL]
    · push_neg at hx
      exact hx.1
  · split_ifs with hx
    · norm_num [defaultPPL]
    · push_neg at hx
      exact hx.2
  · split_ifs with hx
    · norm_num [defaultStopLag]
    · omega
  · split_ifs with hx
    · norm_num [defaultStopExtra]
    · omega

theorem calInv_reset (c : Ctx) : CalInv (resetCalibrationDefaults c) := by
  unfold CalInv resetCalibrationDefaults saveCalibration
  refine ⟨?_, ?_, ?_, ?_⟩ <;> norm_num [defaultPPL, defaultStopLag, defaultStopExtra]

theorem calInv_handleCalKeypad (c : Ctx) (k : Char) (now : Nat) (h : CalInv c) :
    CalInv (handleCalKeypad k now c) := by
  obtain ⟨i1, i2, i3, i4⟩ := h
  unfold handleCalKeypad
  by_cases h1 : c.state = DeviceState.CAL_MENU
  · rw [if_pos h1]
    split_ifs <;>
      first
        | exact ⟨i1, i2, i3, i4⟩
        | exact calInv_reset c
  · rw [if_neg h1]
    by_cases h2 : c.state = DeviceState.CAL_REAL_VOL
    · rw [if_pos h2]
      split_ifs <;>
        first
          | exact ⟨i1, i2, i3, i4⟩
          | (rename_i hx; push_neg at hx; exact ⟨hx.1, hx.2, i3, i4⟩)
    · rw [if_neg h2]
      by_cases h3 : c.state = DeviceState.CAL_OVERSHOOT
      · rw [if_pos h3]
        split_ifs <;>
          first
            | exact ⟨i1, i2, i3, i4⟩
            | (refine ⟨i1, i2, i3, ?_⟩; simp only []; omega)
            | exact ⟨(calInv_load c).1, (calInv_load c).2.1,
                (calInv_load c).2.2.1, (calInv_load c).2.2.2⟩
      · rw [if_neg h3]
        by_cases h4 : c.state = DeviceState.CAL_DISPENSE
        · rw [if_pos h4]
          split_ifs <;> exact ⟨i1, i2, i3, i4⟩
        · rw [if_neg h4]
          exact ⟨i1, i2, i3, i4⟩

/-- Claim C9: the CalibrationProfile invariant (`pulsesPerLiter` in
[50, 2000], `stopLagMs ≤ 3000`, `stopExtraPulses ≤ 300`) holds after
loading from the store for any stored values (out-of-range values are
replaced by defaults), is preserved by every calibration-keypad mutation
(the PPL recomputation rejects out-of-range results and retains the old
value, overshoot tuning keeps `stopExtraPulses` within [0, 300]) and
holds after reset-to-defaults. -/
theorem C9_cal_profile_invariant :
    (∀ c : Ctx, CalInv (loadCalibration c)) ∧
    (∀ (c : Ctx) (k : Char) (now : Nat), CalInv c → CalInv (handleCalKeypad k now c)) ∧
    (∀ c : Ctx, CalInv (resetCalibrationDefaults c)) :=
  ⟨calInv_load, fun c k now h => calInv_handleCalKeypad c k now h, calInv_reset⟩

/-- Claim C9 witness: loading the boot store satisfies the invariant. -/
theorem C9_cal_profile_invariant_witness : CalInv (loadCalibration boot) :=
  C9_cal_profile_invariant.1 boot

/-- Claim C10: on the settling-expiry tick that moves a normal dispense
into `COMPLETE`, the ledger adds the actually dispensed volume (final
pulses over `pulsesPerLiter`) to the volume total, but adds
`target_L * price` — the authorized target times the price per litre,
not the dispensed volume times the price — to the revenue total, and the
transaction count rises by one. -/
theorem C10_ledger_revenue (c : Ctx) (now : Nat)
    (hs : c.state = DeviceState.DISPENSING) (hset : c.settlingActive = true)
    (hdue : 250 ≤ now - c.lastCalcTime)
    (hexp : postPumpSettleMs ≤ now - c.settlingStartMs) :
    (calculateFlow now c).state = DeviceState.COMPLETE ∧
    (calculateFlow now c).dispensed_L = (c.pulseCount : ℚ) / c.pulsesPerLiter ∧
    (calculateFlow now c).salesTotal_L =
      c.salesTotal_L + (c.pulseCount : ℚ) / c.pulsesPerLiter ∧
    (calculateFlow now c).salesTotal_K =
      c.salesTotal_K +
        c.target_L * (if 0 < c.dashboardPrice then c.dashboardPrice else pricePerLiter) ∧
    (calculateFlow now c).transactionCount = c.transactionCount + 1 := by
  unfold calculateFlow
  rw [if_neg (by omega), if_pos (by simp [hset])]
  unfold settleFinish
  rw [if_pos (by simpa using hexp), if_neg (by simp [hs])]
  unfold completeFinish smallVolAdjust settleSnapshot showCompleteRecord priceUsed
  rw [if_neg (by simp [smallVolOffsetML])]
  exact ⟨rfl, rfl, rfl, rfl, rfl⟩

/-- Claim C10 witness: settling expiry of a 1 L dispense with 263 counted
pulses books 263/263 L of volume and `1 * 45` of revenue. -/
theorem C10_ledger_revenue_witness :
    (calculateFlow 1600 wC10).state = DeviceState.COMPLETE ∧
    (calculateFlow 1600 wC10).dispensed_L = (wC10.pulseCount : ℚ) / wC10.pulsesPerLiter ∧
    (calculateFlow 1600 wC10).salesTotal_L =
      wC10.salesTotal_L + (wC10.pulseCount : ℚ) / wC10.pulsesPerLiter ∧
    (calculateFlow 1600 wC10).salesTotal_K =
      wC10.salesTotal_K + wC10.target_L *
        (if 0 < wC10.dashboardPrice then wC10.dashboardPrice else pricePerLiter) ∧
    (calculateFlow 1600 wC10).transactionCount = wC10.transactionCount + 1 :=
  C10_ledger_revenue wC10 1600 rfl rfl (by decide) (by decide)
